import Mathlib

/-!
# Campus Companion — verification of the natural-language specification

Shallow embedding of the single-file front-end
`src/campus companion/deepseek_javascript_20251204_756371.js`.

Modelling conventions:
* JS strings are Lean `String`; `trimString` models `String.prototype.trim`
  (identical on ASCII input), and `Char.isWhitespace` models the regex class
  `\s` (identical on ASCII input).
* The mutable globals `currentUser`, `appState`, `database` and
  `userProfileData` are gathered into one explicit `AppState` record; every
  event handler becomes a pure function from its inputs and the pre-state to
  an outcome and the post-state.
* `Date.now()` is passed in as a `now : Nat` parameter; the date comparison in
  the event handler (`new Date(formData.date) < today`) is modelled at day
  granularity by two integer day numbers `eventDay` / `todayDay`.
* `confirm(...)` dialogs are modelled by explicit `Bool` answers.
* A JS `TypeError` from dereferencing the absent `currentUser`
  (`currentUser.name`) is modelled by the outcome `SubmitOutcome.nullUserCrash`
  with the state left unchanged (the exception aborts the handler before any
  mutation).
* DOM-only effects (notifications, CSS classes, re-rendering of lists) have no
  state content and are not modelled; the profile renderer's output, which one
  claim is about, is modelled by `RenderResult`.
-/

namespace CampusCompanion

/-! ## Data model (section 1 of the source: STATE MANAGEMENT) -/

/-- `currentUser` object: `{name, email, type}` (source lines 32-39). -/
structure User where
  name : String
  email : String
  type : String
deriving DecidableEq, Repr

/-- Announcement record `{id, title, content, priority, date, author}`
(source lines 65-90 and 991-1002). -/
structure Announcement where
  id : Nat
  title : String
  content : String
  priority : String
  date : String
  author : String
deriving DecidableEq, Repr

/-- Event record `{id, title, description, date, time, location, organizer}`
(source lines 93-121 and 1051-1059). -/
structure Event where
  id : Nat
  title : String
  description : String
  date : String
  time : String
  location : String
  organizer : String
deriving DecidableEq, Repr

/-- Schedule record `{id, course, date, time, room, instructor}`
(source lines 124-149 and 1098-1105). -/
structure Schedule where
  id : Nat
  course : String
  date : String
  time : String
  room : String
  instructor : String
deriving DecidableEq, Repr

/-- Admin-managed account record `{id, name, email, type}`
(source lines 1147-1152), distinct from the session `User`. -/
structure PortalUser where
  id : Nat
  name : String
  email : String
  type : String
deriving DecidableEq, Repr

/-- `userProfileData.student` (source lines 157-163). -/
structure StudentProfile where
  id : String
  program : String
  phone : String
  address : String
  email : String
deriving DecidableEq, Repr

/-- `userProfileData.admin` (source lines 164-170). -/
structure AdminProfile where
  id : String
  department : String
  phone : String
  address : String
  email : String
deriving DecidableEq, Repr

/-- The two keyed profile records of `userProfileData` (source lines 156-171). -/
structure UserProfileData where
  student : StudentProfile
  admin : AdminProfile
deriving DecidableEq, Repr

/-- Initial value of `userProfileData` (source lines 156-171). -/
def userProfileData : UserProfileData :=
  { student :=
      { id := "669430"
        program := "Bachelor of Science in Information Systems & Technology"
        phone := "+254 712 345 678"
        address := "USIU-Africa, Thika Road"
        email := "carl.kitusa@usiu.ac.ke" }
    admin :=
      { id := "ADM001"
        department := "Administration"
        phone := "+254 711 222 333"
        address := "USIU-Africa, Administration Building"
        email := "admin@usiu.ac.ke" } }

/-- The input values of the six forms manipulated by `clearForms`
(source lines 1193-1214): login, register, announcement, event, schedule,
user.  Each form's inputs are modelled as field-name/value pairs. -/
structure FormsState where
  loginForm : List (String × String)
  registerForm : List (String × String)
  announcementForm : List (String × String)
  eventForm : List (String × String)
  scheduleForm : List (String × String)
  userForm : List (String × String)
deriving DecidableEq, Repr

/-- The whole mutable state of the application: the globals `currentUser`
(line 39), `appState.currentSection` and `appState.lastActivity` (lines
45-50), the four collections of `database` (lines 56-60), the form inputs and
`userProfileData`. -/
structure AppState where
  currentUser : Option User
  currentSection : String
  lastActivity : Nat
  forms : FormsState
  announcements : List Announcement
  events : List Event
  schedules : List Schedule
  users : List PortalUser
  profiles : UserProfileData
deriving DecidableEq, Repr

/-- `appState.sessionTimeout = 30 * 60 * 1000` (source line 48), in ms. -/
def sessionTimeout : Nat := 30 * 60 * 1000

/-! ## Validator (source lines 249-319) -/

/-- Model of JS `String.prototype.trim` (drop leading and trailing
whitespace), written over the character list so that it evaluates inside the
kernel; identical to `String.trim` and to the JS behaviour on ASCII input. -/
def trimString (s : String) : String :=
  String.mk (((s.toList.dropWhile Char.isWhitespace).reverse.dropWhile
    Char.isWhitespace).reverse)

/-- The character class `[^\s@]` of the email regex (source line 254). -/
def emailAtomChar (c : Char) : Bool :=
  !c.isWhitespace && c != '@'

/-- `validateEmail` (source lines 253-256): test of the regex
`^[^\s@]+@[^\s@]+\.[^\s@]+$`.  A string matches exactly when it splits at its
first `@` into a non-empty `@`-free whitespace-free local part and a
whitespace-free `@`-free remainder that contains a `.` which is neither its
first nor its last character (the parts before and after that dot are the
non-empty `[^\s@]+` groups; `.` itself belongs to `[^\s@]`, so any interior
dot works, which is exactly what regex backtracking allows). -/
def validateEmail (email : String) : Bool :=
  let cs := email.toList
  let localPart := cs.takeWhile (fun c => c != '@')
  match cs.dropWhile (fun c => c != '@') with
  | '@' :: domain =>
      !localPart.isEmpty && localPart.all emailAtomChar &&
        domain.all emailAtomChar && ((domain.drop 1).dropLast.contains '.')
  | _ => false

/-- The error computed by the body of the `forEach` in `validateForm`
(source lines 267-284) for a single required field.  The source performs up to
three assignments to `errors[field]` in sequence (required, email, password);
the last assignment wins, so the value is equivalently the first match of the
reversed chain below. -/
def fieldError (formData : String → String) (field : String) : Option String :=
  if field = "password" ∧ formData field ≠ "" ∧ (formData field).length < 8 then
    some "Password must be at least 8 characters"
  else if field = "email" ∧ formData field ≠ "" ∧ validateEmail (formData field) = false then
    some "Please enter a valid email address"
  else if formData field = "" ∨ trimString (formData field) = "" then
    some (field ++ " is required")
  else none

/-- Result object `{isValid, errors}` of `validateForm` (lines 286-289). -/
structure ValidationResult where
  isValid : Bool
  errors : String → Option String

/-- `validateForm` (source lines 264-290).  `formData` maps field names to
values (a missing key, i.e. JS `undefined`, behaves exactly like `""` in the
source and is modelled as `""`); `isValid` holds when no required field
produced an error, and `errors` holds the per-field messages. -/
def validateForm (formData : String → String) (requiredFields : List String) :
    ValidationResult :=
  { isValid := requiredFields.all fun f => (fieldError formData f).isNone
    errors := fun f => if f ∈ requiredFields then fieldError formData f else none }

/-! ## Validator lemmas -/

/-- A single field produces no error exactly when it is non-empty after
trimming and satisfies the email/password special rules. -/
theorem fieldError_eq_none_iff (M : String → String) (f : String) :
    fieldError M f = none ↔
      (trimString (M f) ≠ "" ∧ (f = "email" → validateEmail (M f) = true) ∧
        (f = "password" → 8 ≤ (M f).length)) := by
  have htrim : M f = "" → trimString (M f) = "" := by
    intro h; rw [h]; decide
  unfold fieldError
  split_ifs with h1 h2 h3
  · simp only [reduceCtorEq, false_iff]
    rintro ⟨-, -, hp⟩
    obtain ⟨hf, -, hlen⟩ := h1
    have := hp hf
    omega
  · simp only [reduceCtorEq, false_iff]
    rintro ⟨-, he, -⟩
    rw [he h2.1] at h2
    exact absurd h2.2.2 (by simp)
  · simp only [reduceCtorEq, false_iff]
    rintro ⟨ht, -, -⟩
    rcases h3 with h3 | h3
    · exact ht (htrim h3)
    · exact ht h3
  · push_neg at h1 h2 h3
    simp only [true_iff]
    refine ⟨h3.2, ?_, ?_⟩
    · intro hf
      by_contra hv
      exact absurd (by simpa using hv) (h2 hf h3.1)
    · intro hf
      have := h1 hf h3.1
      omega

/-- Any offending required field carries an error message. -/
theorem fieldError_isSome_of_offending (M : String → String) (f : String)
    (h : trimString (M f) = "" ∨ (f = "email" ∧ validateEmail (M f) = false) ∨
      (f = "password" ∧ (M f).length < 8)) :
    (fieldError M f).isSome = true := by
  rw [Option.isSome_iff_ne_none]
  intro hnone
  have hok := (fieldError_eq_none_iff M f).mp hnone
  rcases h with h | ⟨hf, hv⟩ | ⟨hf, hl⟩
  · exact hok.1 h
  · rw [hok.2.1 hf] at hv
    exact absurd hv (by simp)
  · have := hok.2.2 hf
    omega

/-- The errors component of `validateForm` is `some` on offending fields. -/
theorem validateForm_errors_isSome (M : String → String) (R : List String)
    (f : String) (hf : f ∈ R)
    (h : trimString (M f) = "" ∨ (f = "email" ∧ validateEmail (M f) = false) ∨
      (f = "password" ∧ (M f).length < 8)) :
    ((validateForm M R).errors f).isSome = true := by
  show (if f ∈ R then fieldError M f else none).isSome = true
  rw [if_pos hf]
  exact fieldError_isSome_of_offending M f h

/-! ## Delete-by-id operations (source lines 794-840) -/

/-- Common core of the four delete functions: `collection.filter(x => x.id
!== id)` keyed by the record's id. -/
def removeById {α : Type} (key : α → Nat) (l : List α) (id : Nat) : List α :=
  l.filter fun a => key a != id

/-- `deleteAnnouncement` (source lines 798-804): gated by
`confirm(...)`, then filters the collection. -/
def deleteAnnouncement (answer : Bool) (l : List Announcement) (id : Nat) :
    List Announcement :=
  if answer then removeById Announcement.id l id else l

/-- `deleteEvent` (source lines 810-816). -/
def deleteEvent (answer : Bool) (l : List Event) (id : Nat) : List Event :=
  if answer then removeById Event.id l id else l

/-- `deleteSchedule` (source lines 822-828). -/
def deleteSchedule (answer : Bool) (l : List Schedule) (id : Nat) : List Schedule :=
  if answer then removeById Schedule.id l id else l

/-- `deleteUser` (source lines 834-840). -/
def deleteUser (answer : Bool) (l : List PortalUser) (id : Nat) : List PortalUser :=
  if answer then removeById PortalUser.id l id else l

/-- If no element of the list has the given key, `removeById` is the
identity. -/
theorem removeById_of_not_mem {α : Type} (key : α → Nat) (l : List α) (id : Nat)
    (h : ∀ a ∈ l, key a ≠ id) : removeById key l id = l := by
  unfold removeById
  rw [List.filter_eq_self]
  intro a ha
  simpa using h a ha

/-- With pairwise-distinct keys, removing a present key shortens the list by
exactly one element. -/
theorem removeById_length_of_mem {α : Type} (key : α → Nat) (id : Nat) :
    ∀ l : List α, (l.map key).Nodup → (∃ a ∈ l, key a = id) →
      (removeById key l id).length + 1 = l.length := by
  intro l
  induction l with
  | nil => rintro - ⟨a, ha, -⟩; exact absurd ha (List.not_mem_nil a)
  | cons x xs ih =>
    intro hnd hex
    rw [List.map_cons, List.nodup_cons] at hnd
    by_cases hx : key x = id
    · have hxs : ∀ a ∈ xs, key a ≠ id := by
        intro a ha h
        have hmem : key a ∈ xs.map key := List.mem_map_of_mem key ha
        rw [h, ← hx] at hmem
        exact hnd.1 hmem
      unfold removeById
      rw [List.filter_cons_of_neg (by simpa using hx),
        show List.filter (fun a => key a != id) xs = removeById key xs id from rfl,
        removeById_of_not_mem key xs id hxs, List.length_cons]
    · have hex' : ∃ a ∈ xs, key a = id := by
        rcases hex with ⟨a, ha, hk⟩
        rcases List.mem_cons.mp ha with rfl | ha'
        · exact absurd hk hx
        · exact ⟨a, ha', hk⟩
      unfold removeById
      rw [List.filter_cons_of_pos (by simpa using hx), List.length_cons,
        show List.filter (fun a => key a != id) xs = removeById key xs id from rfl]
      rw [List.length_cons, ih hnd.2 hex']

/-- Records whose key differs from the removed one survive `removeById`. -/
theorem mem_removeById {α : Type} (key : α → Nat) (l : List α) (id : Nat)
    (a : α) (ha : a ∈ l) (hk : key a ≠ id) : a ∈ removeById key l id := by
  unfold removeById
  rw [List.mem_filter]
  exact ⟨ha, by simpa using hk⟩

/-! ## Form handlers (source lines 846-1163)

Each handler collects its field values (applying `.trim()` exactly where the
source does), validates, and either surfaces the errors and leaves the state
unchanged, or applies its state transition.  Outcomes: -/

/-- Observable outcome of one form submission.  `invalid` is the
`showFormErrors` early return; `dateError` is the past-date rejection of the
event form; `emailError` is the extra `validateEmail` rejection of the user
form; `nullUserCrash` is the `TypeError` thrown by reading `currentUser.name`
while `currentUser` is `null` (the handler aborts before mutating anything);
`success` is the normal completion. -/
inductive SubmitOutcome where
  | invalid
  | dateError
  | emailError
  | nullUserCrash
  | success
deriving DecidableEq, Repr

/-- Required fields of the login form (source line 863). -/
def loginRequiredFields : List String := ["email", "password", "userType"]

/-- The `formData` object of the login handler (source lines 856-860):
email and password are trimmed, the userType select value is not. -/
def loginFormData (email password userType : String) : String → String :=
  fun f =>
    if f = "email" then trimString email
    else if f = "password" then trimString password
    else if f = "userType" then userType
    else ""

/-- Login submit handler (source lines 849-904), including the state reached
after the two simulated delays: on valid input `currentUser` is set to the
fabricated identity (name `"Admin User"` for admins, `"Carl Kitusa"`
otherwise) and `showSection('dashboard')` runs, which also refreshes
`lastActivity` with the clock value `now`. -/
def loginFormSubmit (email password userType : String) (now : Nat)
    (st : AppState) : SubmitOutcome × AppState :=
  let formData := loginFormData email password userType
  let validation := validateForm formData loginRequiredFields
  if validation.isValid then
    let u : User :=
      { name := if userType = "admin" then "Admin User" else "Carl Kitusa"
        email := formData "email"
        type := userType }
    (.success,
      { st with currentUser := some u, currentSection := "dashboard",
                lastActivity := now })
  else (.invalid, st)

/-- Required fields of the register form (source line 924). -/
def registerRequiredFields : List String := ["name", "email", "password", "userType"]

/-- The `formData` object of the register handler (source lines 916-921). -/
def registerFormData (name email password userType : String) : String → String :=
  fun f =>
    if f = "name" then trimString name
    else if f = "email" then trimString email
    else if f = "password" then trimString password
    else if f = "userType" then userType
    else ""

/-- Register submit handler (source lines 909-965), after the delays. -/
def registerFormSubmit (name email password userType : String) (now : Nat)
    (st : AppState) : SubmitOutcome × AppState :=
  let formData := registerFormData name email password userType
  let validation := validateForm formData registerRequiredFields
  if validation.isValid then
    let u : User :=
      { name := formData "name"
        email := formData "email"
        type := userType }
    (.success,
      { st with currentUser := some u, currentSection := "dashboard",
                lastActivity := now })
  else (.invalid, st)

/-- Required fields of the announcement form (source line 984). -/
def announcementRequiredFields : List String := ["title", "content"]

/-- The `formData` object of the announcement handler (source lines
977-981). -/
def announcementFormData (title content priority : String) : String → String :=
  fun f =>
    if f = "title" then trimString title
    else if f = "content" then trimString content
    else if f = "priority" then priority
    else ""

/-- Announcement submit handler (source lines 970-1013).  `now` is
`Date.now()` (used as the new id) and `todayStr` is the formatted
`new Date().toLocaleDateString(...)`.  Reading `currentUser.name` with
`currentUser = null` throws before any mutation. -/
def announcementFormSubmit (title content priority : String) (now : Nat)
    (todayStr : String) (defaults : FormsState) (st : AppState) :
    SubmitOutcome × AppState :=
  let formData := announcementFormData title content priority
  let validation := validateForm formData announcementRequiredFields
  if validation.isValid then
    match st.currentUser with
    | none => (.nullUserCrash, st)
    | some u =>
      let newAnnouncement : Announcement :=
        { id := now
          title := formData "title"
          content := formData "content"
          priority := formData "priority"
          date := todayStr
          author := u.name }
      (.success,
        { st with
            announcements := newAnnouncement :: st.announcements
            forms := { st.forms with announcementForm := defaults.announcementForm } })
  else (.invalid, st)

/-- Required fields of the event form (source line 1034). -/
def eventRequiredFields : List String := ["title", "date", "time", "location", "description"]

/-- The `formData` object of the event handler (source lines 1025-1031):
title, location and description are trimmed; the date and time picker values
are not. -/
def eventFormData (title dateStr timeStr location description : String) :
    String → String :=
  fun f =>
    if f = "title" then trimString title
    else if f = "date" then dateStr
    else if f = "time" then timeStr
    else if f = "location" then trimString location
    else if f = "description" then trimString description
    else ""

/-- Event submit handler (source lines 1018-1070).  The comparison
`new Date(formData.date) < today` (with `today` set to midnight) is modelled
at day granularity: `eventDay` is the day encoded by the submitted date value
and `todayDay` the current day. -/
def eventFormSubmit (title dateStr timeStr location description : String)
    (eventDay todayDay : Int) (now : Nat) (defaults : FormsState)
    (st : AppState) : SubmitOutcome × AppState :=
  let formData := eventFormData title dateStr timeStr location description
  let validation := validateForm formData eventRequiredFields
  if validation.isValid then
    if eventDay < todayDay then (.dateError, st)
    else
      match st.currentUser with
      | none => (.nullUserCrash, st)
      | some u =>
        let newEvent : Event :=
          { id := now
            title := formData "title"
            description := formData "description"
            date := formData "date"
            time := formData "time"
            location := formData "location"
            organizer := u.name }
        (.success,
          { st with
              events := newEvent :: st.events
              forms := { st.forms with eventForm := defaults.eventForm } })
  else (.invalid, st)

/-- Required fields of the schedule form (source line 1091). -/
def scheduleRequiredFields : List String := ["course", "date", "time", "room", "instructor"]

/-- The `formData` object of the schedule handler (source lines 1082-1088). -/
def scheduleFormData (course dateStr timeStr room instructor : String) :
    String → String :=
  fun f =>
    if f = "course" then trimString course
    else if f = "date" then dateStr
    else if f = "time" then timeStr
    else if f = "room" then trimString room
    else if f = "instructor" then trimString instructor
    else ""

/-- Schedule submit handler (source lines 1075-1116). -/
def scheduleFormSubmit (course dateStr timeStr room instructor : String)
    (now : Nat) (defaults : FormsState) (st : AppState) :
    SubmitOutcome × AppState :=
  let formData := scheduleFormData course dateStr timeStr room instructor
  let validation := validateForm formData scheduleRequiredFields
  if validation.isValid then
    let newSchedule : Schedule :=
      { id := now
        course := formData "course"
        date := formData "date"
        time := formData "time"
        room := formData "room"
        instructor := formData "instructor" }
    (.success,
      { st with
          schedules := newSchedule :: st.schedules
          forms := { st.forms with scheduleForm := defaults.scheduleForm } })
  else (.invalid, st)

/-- Required fields of the user form (source line 1135). -/
def userRequiredFields : List String := ["name", "email", "type"]

/-- The `formData` object of the user handler (source lines 1128-1132). -/
def userFormData (name email utype : String) : String → String :=
  fun f =>
    if f = "name" then trimString name
    else if f = "email" then trimString email
    else if f = "type" then utype
    else ""

/-- User submit handler (source lines 1121-1163), including the extra
`validateEmail` check (source lines 1141-1144). -/
def userFormSubmit (name email utype : String) (now : Nat)
    (defaults : FormsState) (st : AppState) : SubmitOutcome × AppState :=
  let formData := userFormData name email utype
  let validation := validateForm formData userRequiredFields
  if validation.isValid then
    if validateEmail (formData "email") = false then (.emailError, st)
    else
      let newUser : PortalUser :=
        { id := now
          name := formData "name"
          email := formData "email"
          type := formData "type" }
      (.success,
        { st with
            users := newUser :: st.users
            forms := { st.forms with userForm := defaults.userForm } })
  else (.invalid, st)

/-! ## Profile rendering and section routing (source lines 329-378, 504-580) -/

/-- The information injected into the profile region by `renderProfile`
(source lines 504-580): the id / program-or-department / phone / address of
the profile record selected by the current user's role, in either edit or
display mode. -/
structure ProfileRender where
  editMode : Bool
  isAdmin : Bool
  shownId : String
  shownProgram : String
  shownPhone : String
  shownAddress : String
deriving DecidableEq, Repr

/-- Outcome of running the profile renderer: `noContent` is the `if
(!currentUser) return;` early exit (nothing rendered), `content` carries the
rendered information, and `crash` is the `TypeError` from
`userProfileData[currentUser.type]` being `undefined` when the role is
neither `student` nor `admin`. -/
inductive RenderResult where
  | noContent
  | content (r : ProfileRender)
  | crash
deriving DecidableEq, Repr

/-- `renderProfile` (source lines 504-580).  `isAdmin` is
`currentUser.type === 'admin'`; the profile record is
`userProfileData[currentUser.type]`. -/
def renderProfile (editMode : Bool) (user : Option User)
    (profiles : UserProfileData) : RenderResult :=
  match user with
  | none => .noContent
  | some u =>
    if u.type = "admin" then
      .content
        { editMode := editMode, isAdmin := true
          shownId := profiles.admin.id
          shownProgram := profiles.admin.department
          shownPhone := profiles.admin.phone
          shownAddress := profiles.admin.address }
    else if u.type = "student" then
      .content
        { editMode := editMode, isAdmin := false
          shownId := profiles.student.id
          shownProgram := profiles.student.program
          shownPhone := profiles.student.phone
          shownAddress := profiles.student.address }
    else .crash

/-- The six top-level section ids present in the document. -/
def knownSections : List String :=
  ["home", "login", "register", "dashboard", "profile", "features"]

/-- `onSectionShow` (source lines 362-378), restricted to its only
state-relevant effect: the profile render triggered when the profile section
is shown (guarded by `if (currentUser)`).  The dashboard and features cases
only touch the document tree. -/
def onSectionShow (sectionId : String) (user : Option User)
    (profiles : UserProfileData) : RenderResult :=
  if sectionId = "profile" then
    if user.isSome then renderProfile false user profiles else .noContent
  else .noContent

/-- `showSection` (source lines 329-356): records the new current section,
runs the section-specific logic when the section id exists in the document,
and refreshes the activity timestamp (`updateUserActivity`, line 355). -/
def showSection (sectionId : String) (now : Nat) (st : AppState) :
    AppState × RenderResult :=
  let render :=
    if sectionId ∈ knownSections then onSectionShow sectionId st.currentUser st.profiles
    else .noContent
  ({ st with currentSection := sectionId, lastActivity := now }, render)

/-! ## Session management (source lines 1169-1227) -/

/-- `clearForms` (source lines 1193-1214): resets all six forms to their
default input values. -/
def clearForms (defaults : FormsState) : FormsState :=
  { loginForm := defaults.loginForm
    registerForm := defaults.registerForm
    announcementForm := defaults.announcementForm
    eventForm := defaults.eventForm
    scheduleForm := defaults.scheduleForm
    userForm := defaults.userForm }

/-- `logout` (source lines 1219-1227): gated by its own `confirm(...)`
dialog (`answer`); on confirmation clears `currentUser`, resets the forms,
and shows the home section (which also refreshes `lastActivity`). -/
def logout (answer : Bool) (now : Nat) (defaults : FormsState)
    (st : AppState) : AppState :=
  if answer then
    { st with currentUser := none
              forms := clearForms defaults
              currentSection := "home"
              lastActivity := now }
  else st

/-- `checkSessionTimeout` (source lines 1179-1188): when a user is logged in
and more than `sessionTimeout` ms have passed since the last activity, the
re-login `confirm` prompt is shown (the returned `Bool`); answering yes calls
`logout()`, which asks its own second confirmation.  `answerTimeout` and
`answerLogout` are the two dialog answers. -/
def checkSessionTimeout (now : Nat) (answerTimeout answerLogout : Bool)
    (defaults : FormsState) (st : AppState) : Bool × AppState :=
  if st.currentUser.isSome ∧
      (sessionTimeout : Int) < (now : Int) - (st.lastActivity : Int) then
    (true, if answerTimeout then logout answerLogout now defaults st else st)
  else (false, st)

/-! ## Concrete sample data (used by witnesses and counterexamples) -/

/-- The sample announcements installed by `database.init` (source lines
65-90). -/
def initAnnouncements : List Announcement :=
  [{ id := 1
     title := "Midterm Project Submission Deadline Extended"
     content := "The deadline for midterm project submissions has been extended to December 20, 2025."
     priority := "important"
     date := "December 15, 2025"
     author := "Academic Office" },
   { id := 2
     title := "Campus Maintenance - Library Closed on Saturday"
     content := "The main library will be closed this Saturday for scheduled maintenance. E-resources will remain available."
     priority := "normal"
     date := "December 12, 2025"
     author := "Facilities Management" },
   { id := 3
     title := "Career Fair - December 5-7, 2025"
     content := "Annual career fair featuring top companies. Register through the career portal."
     priority := "urgent"
     date := "December 10, 2025"
     author := "Career Services" }]

/-- Six empty forms. -/
def emptyForms : FormsState :=
  { loginForm := [], registerForm := [], announcementForm := []
    eventForm := [], scheduleForm := [], userForm := [] }

/-- A logged-in admin session user. -/
def adminUser : User :=
  { name := "Admin User", email := "admin@usiu.ac.ke", type := "admin" }

/-- A concrete state with an admin logged in and empty collections. -/
def baseState : AppState :=
  { currentUser := some adminUser
    currentSection := "dashboard"
    lastActivity := 0
    forms := emptyForms
    announcements := []
    events := []
    schedules := []
    users := []
    profiles := userProfileData }

/-! ## Claim C1 -/

/-- C1: for every map of field values `M` and list of required field names
`R`, `validateForm M R` returns `isValid = true` if and only if every field
in `R` is non-empty after trimming, and (if `email ∈ R`) the email value
matches the `local@domain.tld` shape, and (if `password ∈ R`) the password
value has length at least 8; moreover every offending field in `R` carries a
per-field error message. -/
theorem C1_validateForm_correct (M : String → String) (R : List String) :
    ((validateForm M R).isValid = true ↔
      ((∀ f ∈ R, trimString (M f) ≠ "") ∧
        ("email" ∈ R → validateEmail (M "email") = true) ∧
        ("password" ∈ R → 8 ≤ (M "password").length))) ∧
    (∀ f ∈ R,
      (trimString (M f) = "" ∨ (f = "email" ∧ validateEmail (M f) = false) ∨
        (f = "password" ∧ (M f).length < 8)) →
      ((validateForm M R).errors f).isSome = true) := by
  constructor
  · show R.all (fun f => (fieldError M f).isNone) = true ↔ _
    rw [List.all_eq_true]
    constructor
    · intro h
      have h' : ∀ f ∈ R, trimString (M f) ≠ "" ∧
          (f = "email" → validateEmail (M f) = true) ∧
          (f = "password" → 8 ≤ (M f).length) := fun f hf =>
        (fieldError_eq_none_iff M f).mp (Option.isNone_iff_eq_none.mp (h f hf))
      exact ⟨fun f hf => (h' f hf).1, fun he => (h' _ he).2.1 rfl,
        fun hp => (h' _ hp).2.2 rfl⟩
    · rintro ⟨h1, h2, h3⟩ f hf
      rw [Option.isNone_iff_eq_none, fieldError_eq_none_iff]
      refine ⟨h1 f hf, fun hef => ?_, fun hpf => ?_⟩
      · subst hef; exact h2 hf
      · subst hpf; exact h3 hf
  · intro f hf hoff
    exact validateForm_errors_isSome M R f hf hoff

/-- C1 witness: with required fields `["email", "title"]` and an email value
failing the shape check, the theorem yields the error message on the
offending `email` field. -/
theorem C1_validateForm_correct_witness :
    ((validateForm (fun f => if f = "email" then "not-an-email" else "ok")
        ["email", "title"]).errors "email").isSome = true :=
  (C1_validateForm_correct
      (fun f => if f = "email" then "not-an-email" else "ok")
      ["email", "title"]).2 "email" (by decide)
    (Or.inr (Or.inl ⟨rfl, by decide⟩))

/-! ## Claim C2 -/

/-- C2 (amended): with the confirmation accepted, each of the four
delete-by-id operations removes every record whose id equals the given id
(exactly one when the collection's ids are pairwise distinct — the store
invariant — and the id is present), removes none when the id is absent, and
leaves the relative order of the remaining records unchanged. -/
theorem C2_delete_by_id_spec :
    (∀ (l : List Announcement) (id : Nat),
      deleteAnnouncement true l id = removeById Announcement.id l id) ∧
    (∀ (l : List Event) (id : Nat),
      deleteEvent true l id = removeById Event.id l id) ∧
    (∀ (l : List Schedule) (id : Nat),
      deleteSchedule true l id = removeById Schedule.id l id) ∧
    (∀ (l : List PortalUser) (id : Nat),
      deleteUser true l id = removeById PortalUser.id l id) ∧
    (∀ (α : Type) (key : α → Nat) (l : List α) (id : Nat),
      (removeById key l id).Sublist l ∧
      ((∀ a ∈ l, key a ≠ id) → removeById key l id = l) ∧
      ((l.map key).Nodup → (∃ a ∈ l, key a = id) →
        (removeById key l id).length + 1 = l.length ∧
        ∀ a ∈ l, key a ≠ id → a ∈ removeById key l id)) := by
  refine ⟨fun l id => rfl, fun l id => rfl, fun l id => rfl, fun l id => rfl,
    fun α key l id => ⟨List.filter_sublist l, removeById_of_not_mem key l id,
      fun hnd hex => ⟨removeById_length_of_mem key id l hnd hex,
        fun a ha hk => mem_removeById key l id a ha hk⟩⟩⟩

/-- C2 witness: deleting the present id 2 from the three sample
announcements (distinct ids) removes exactly one record. -/
theorem C2_delete_by_id_spec_witness :
    deleteAnnouncement true initAnnouncements 2 = removeById Announcement.id initAnnouncements 2 ∧
    (removeById Announcement.id initAnnouncements 2).length + 1 = initAnnouncements.length :=
  ⟨C2_delete_by_id_spec.1 initAnnouncements 2,
    ((C2_delete_by_id_spec.2.2.2.2 Announcement Announcement.id
        initAnnouncements 2).2.2 (by decide) (by decide)).1⟩

/-- Two announcements sharing id 1: a timestamp-collision state, which the
store admits (ids are taken from `Date.now()` with no uniqueness check). -/
def dupAnnouncements : List Announcement :=
  [{ id := 1, title := "A", content := "x", priority := "normal",
     date := "d", author := "au" },
   { id := 1, title := "B", content := "y", priority := "normal",
     date := "d", author := "au" }]

/-- C2 counterexample: on a collection holding two records with id 1, the
confirmed delete removes both of them, not exactly one — the length does not
drop by one although a record with the id is present. -/
theorem C2_counterexample :
    (∃ a ∈ dupAnnouncements, a.id = 1) ∧
    (deleteAnnouncement true dupAnnouncements 1).length ≠
      dupAnnouncements.length - 1 := by decide

/-! ## Claim C3 -/

/-- An id is absent from a collection exactly when every record's key
differs from it. -/
theorem forall_ne_iff_not_mem_map {α : Type} (key : α → Nat) (l : List α)
    (n : Nat) : (∀ a ∈ l, key a ≠ n) ↔ n ∉ l.map key := by
  rw [List.mem_map]
  push_neg
  exact Iff.rfl

/-- A passing validation with `email` among the required fields forces the
email value to match the shape. -/
theorem validateForm_email_ok (M : String → String) (R : List String)
    (hR : "email" ∈ R) (h : (validateForm M R).isValid = true) :
    validateEmail (M "email") = true := by
  have h' : R.all (fun f => (fieldError M f).isNone) = true := h
  have hall := List.all_eq_true.mp h' "email" hR
  exact ((fieldError_eq_none_iff M "email").mp
    (Option.isNone_iff_eq_none.mp hall)).2.1 rfl

/-- C3: for every event-form submission whose fields pass validation, a
submitted date strictly before the current day is rejected with the
business-rule error and the whole state (in particular the events
collection) is unchanged; a date on or after the current day — with a user
logged in, the precondition under which the admin event form is reachable —
succeeds and the event is added at the front of the collection. -/
theorem C3_event_date_rule (title dateStr timeStr location description : String)
    (eventDay todayDay : Int) (now : Nat) (defaults : FormsState)
    (st : AppState)
    (hvalid : (validateForm
        (eventFormData title dateStr timeStr location description)
        eventRequiredFields).isValid = true) :
    (eventDay < todayDay →
      eventFormSubmit title dateStr timeStr location description eventDay
        todayDay now defaults st = (SubmitOutcome.dateError, st)) ∧
    (todayDay ≤ eventDay → ∀ u, st.currentUser = some u →
      (eventFormSubmit title dateStr timeStr location description eventDay
          todayDay now defaults st).1 = SubmitOutcome.success ∧
      (eventFormSubmit title dateStr timeStr location description eventDay
          todayDay now defaults st).2.events =
        { id := now
          title := eventFormData title dateStr timeStr location description "title"
          description := eventFormData title dateStr timeStr location description "description"
          date := eventFormData title dateStr timeStr location description "date"
          time := eventFormData title dateStr timeStr location description "time"
          location := eventFormData title dateStr timeStr location description "location"
          organizer := u.name } :: st.events) := by
  constructor
  · intro hlt
    simp [eventFormSubmit, hvalid, hlt]
  · intro hge u hu
    have hnotlt : ¬ eventDay < todayDay := not_lt.mpr hge
    constructor <;> simp [eventFormSubmit, hvalid, hnotlt, hu]

/-- C3 witness: a concrete valid submission dated exactly today, with an
admin logged in, succeeds. -/
theorem C3_event_date_rule_witness :
    (eventFormSubmit "T" "2025-12-20" "14:00" "L" "D" 5 5 99 emptyForms
      baseState).1 = SubmitOutcome.success :=
  ((C3_event_date_rule "T" "2025-12-20" "14:00" "L" "D" 5 5 99 emptyForms
      baseState (by decide)).2 (le_refl 5) adminUser rfl).1

/-! ## Claim C4 -/

/-- C4 (amended): every CRUD-form submission that passes validation (with a
user logged in for the two handlers that read `currentUser.name`) inserts the
new record at index 0 of its collection, keeping the previously stored
records in unchanged relative order behind it; the new id is the submission
timestamp `now`, and it is distinct from every id already in the collection
exactly when `now` does not already occur among those ids (uniqueness is not
otherwise enforced). -/
theorem C4_insert_at_front :
    (∀ title content priority now todayStr defaults st u,
      st.currentUser = some u →
      (validateForm (announcementFormData title content priority)
        announcementRequiredFields).isValid = true →
      ∃ r : Announcement,
        announcementFormSubmit title content priority now todayStr defaults st =
          (SubmitOutcome.success,
            { st with
                announcements := r :: st.announcements
                forms := { st.forms with
                  announcementForm := defaults.announcementForm } }) ∧
        r.id = now ∧
        ((∀ a ∈ st.announcements, a.id ≠ r.id) ↔
          now ∉ st.announcements.map Announcement.id)) ∧
    (∀ title dateStr timeStr location description eventDay todayDay now
        defaults st u,
      st.currentUser = some u → todayDay ≤ eventDay →
      (validateForm (eventFormData title dateStr timeStr location description)
        eventRequiredFields).isValid = true →
      ∃ r : Event,
        eventFormSubmit title dateStr timeStr location description eventDay
            todayDay now defaults st =
          (SubmitOutcome.success,
            { st with
                events := r :: st.events
                forms := { st.forms with eventForm := defaults.eventForm } }) ∧
        r.id = now ∧
        ((∀ a ∈ st.events, a.id ≠ r.id) ↔ now ∉ st.events.map Event.id)) ∧
    (∀ course dateStr timeStr room instructor now defaults st,
      (validateForm (scheduleFormData course dateStr timeStr room instructor)
        scheduleRequiredFields).isValid = true →
      ∃ r : Schedule,
        scheduleFormSubmit course dateStr timeStr room instructor now defaults st =
          (SubmitOutcome.success,
            { st with
                schedules := r :: st.schedules
                forms := { st.forms with scheduleForm := defaults.scheduleForm } }) ∧
        r.id = now ∧
        ((∀ a ∈ st.schedules, a.id ≠ r.id) ↔
          now ∉ st.schedules.map Schedule.id)) ∧
    (∀ name email utype now defaults st,
      (validateForm (userFormData name email utype)
        userRequiredFields).isValid = true →
      ∃ r : PortalUser,
        userFormSubmit name email utype now defaults st =
          (SubmitOutcome.success,
            { st with
                users := r :: st.users
                forms := { st.forms with userForm := defaults.userForm } }) ∧
        r.id = now ∧
        ((∀ a ∈ st.users, a.id ≠ r.id) ↔ now ∉ st.users.map PortalUser.id)) := by
  refine ⟨?_, ?_, ?_, ?_⟩
  · intro title content priority now todayStr defaults st u hu hvalid
    refine ⟨{ id := now
              title := announcementFormData title content priority "title"
              content := announcementFormData title content priority "content"
              priority := announcementFormData title content priority "priority"
              date := todayStr
              author := u.name }, ?_, rfl,
      forall_ne_iff_not_mem_map Announcement.id st.announcements now⟩
    simp [announcementFormSubmit, hvalid, hu]
  · intro title dateStr timeStr location description eventDay todayDay now
      defaults st u hu hge hvalid
    have hnotlt : ¬ eventDay < todayDay := not_lt.mpr hge
    refine ⟨{ id := now
              title := eventFormData title dateStr timeStr location description "title"
              description := eventFormData title dateStr timeStr location description "description"
              date := eventFormData title dateStr timeStr location description "date"
              time := eventFormData title dateStr timeStr location description "time"
              location := eventFormData title dateStr timeStr location description "location"
              organizer := u.name }, ?_, rfl,
      forall_ne_iff_not_mem_map Event.id st.events now⟩
    simp [eventFormSubmit, hvalid, hnotlt, hu]
  · intro course dateStr timeStr room instructor now defaults st hvalid
    refine ⟨{ id := now
              course := scheduleFormData course dateStr timeStr room instructor "course"
              date := scheduleFormData course dateStr timeStr room instructor "date"
              time := scheduleFormData course dateStr timeStr room instructor "time"
              room := scheduleFormData course dateStr timeStr room instructor "room"
              instructor := scheduleFormData course dateStr timeStr room instructor "instructor" },
      ?_, rfl, forall_ne_iff_not_mem_map Schedule.id st.schedules now⟩
    simp [scheduleFormSubmit, hvalid]
  · intro name email utype now defaults st hvalid
    have hemail : validateEmail (userFormData name email utype "email") = true :=
      validateForm_email_ok _ userRequiredFields (by decide) hvalid
    refine ⟨{ id := now
              name := userFormData name email utype "name"
              email := userFormData name email utype "email"
              type := userFormData name email utype "type" }, ?_, rfl,
      forall_ne_iff_not_mem_map PortalUser.id st.users now⟩
    simp [userFormSubmit, hvalid, hemail]

/-- C4 witness: a concrete valid schedule submission at clock value 42 into
the empty store inserts at the front with id 42. -/
theorem C4_insert_at_front_witness :
    ∃ r : Schedule,
      scheduleFormSubmit "APT3080 - Web Development" "2025-12-15" "14:00"
          "TC-310" "Dr. Williams" 42 emptyForms baseState =
        (SubmitOutcome.success,
          { baseState with
              schedules := r :: baseState.schedules
              forms := { baseState.forms with
                scheduleForm := emptyForms.scheduleForm } }) ∧
      r.id = 42 ∧
      ((∀ a ∈ baseState.schedules, a.id ≠ r.id) ↔
        42 ∉ baseState.schedules.map Schedule.id) :=
  C4_insert_at_front.2.2.1 "APT3080 - Web Development" "2025-12-15" "14:00"
    "TC-310" "Dr. Williams" 42 emptyForms baseState (by decide)

/-- A schedule record with id 1 (the first sample schedule of
`database.init`, source lines 125-132). -/
def sampleSchedule : Schedule :=
  { id := 1
    course := "APT3065 - Software Engineering"
    date := "2025-12-15"
    time := "08:00"
    room := "TC-304"
    instructor := "Dr. Smith" }

/-- A state whose schedule collection already holds a record with id 1. -/
def collidingState : AppState :=
  { baseState with schedules := [sampleSchedule] }

/-- C4 counterexample: a valid schedule submission at clock value 1 into a
collection already holding id 1 succeeds and yields two records with the
same id — the inserted id is not distinct from every existing id. -/
theorem C4_counterexample :
    (scheduleFormSubmit "C" "2025-12-16" "09:00" "R" "I" 1 emptyForms
      collidingState).1 = SubmitOutcome.success ∧
    ((scheduleFormSubmit "C" "2025-12-16" "09:00" "R" "I" 1 emptyForms
      collidingState).2.schedules.map Schedule.id) = [1, 1] := by decide

/-! ## Claim C5 -/

/-- C5 (amended): when a user is logged in and more than the 30-minute
session timeout has elapsed since the last activity, the periodic check shows
the re-login prompt; confirming it invokes `logout()`, which asks its own
second confirmation — confirming both logs the user out (current user
cleared, all forms reset, view back to home), while declining the nested
logout confirmation leaves the state unchanged. -/
theorem C5_session_timeout (now : Nat) (defaults : FormsState) (st : AppState)
    (u : User) (hu : st.currentUser = some u)
    (hexp : (sessionTimeout : Int) < (now : Int) - (st.lastActivity : Int)) :
    (checkSessionTimeout now true true defaults st).1 = true ∧
    (checkSessionTimeout now true true defaults st).2 =
      { st with currentUser := none, forms := clearForms defaults,
                currentSection := "home", lastActivity := now } ∧
    (checkSessionTimeout now true false defaults st).2 = st := by
  have hsome : st.currentUser.isSome = true := by rw [hu]; rfl
  refine ⟨?_, ?_, ?_⟩ <;> simp [checkSessionTimeout, logout, hsome, hexp]

/-- C5 witness: one millisecond past the timeout with an admin logged in,
the prompt fires and double confirmation clears the user. -/
theorem C5_session_timeout_witness :
    (checkSessionTimeout (sessionTimeout + 1) true true emptyForms baseState).1 = true ∧
    (checkSessionTimeout (sessionTimeout + 1) true true emptyForms baseState).2 =
      { baseState with currentUser := none, forms := clearForms emptyForms,
                       currentSection := "home", lastActivity := sessionTimeout + 1 } :=
  ⟨(C5_session_timeout (sessionTimeout + 1) emptyForms baseState adminUser rfl
      (by decide)).1,
    (C5_session_timeout (sessionTimeout + 1) emptyForms baseState adminUser rfl
      (by decide)).2.1⟩

/-- C5 counterexample: with the session expired and a user logged in,
confirming the timeout prompt but declining the nested logout confirmation
leaves the user logged in — confirming that single prompt does not log the
user out. -/
theorem C5_counterexample :
    (checkSessionTimeout (sessionTimeout + 1) true false emptyForms baseState).1 = true ∧
    (checkSessionTimeout (sessionTimeout + 1) true false emptyForms
      baseState).2.currentUser = some adminUser := by decide

/-! ## Claim C6 -/

/-- C6: every login or register submission whose fields pass validation ends
(after the simulated delay) with a current user present; every confirmed
logout clears the current user and resets all six forms' input values. -/
theorem C6_auth_transitions :
    (∀ email password userType now st,
      (validateForm (loginFormData email password userType)
        loginRequiredFields).isValid = true →
      ((loginFormSubmit email password userType now st).2.currentUser).isSome
        = true) ∧
    (∀ name email password userType now st,
      (validateForm (registerFormData name email password userType)
        registerRequiredFields).isValid = true →
      ((registerFormSubmit name email password userType now
        st).2.currentUser).isSome = true) ∧
    (∀ now defaults st,
      (logout true now defaults st).currentUser = none ∧
      (logout true now defaults st).forms = clearForms defaults) := by
  refine ⟨?_, ?_, ?_⟩
  · intro email password userType now st hvalid
    simp [loginFormSubmit, hvalid]
  · intro name email password userType now st hvalid
    simp [registerFormSubmit, hvalid]
  · intro now defaults st
    constructor <;> simp [logout]

/-- C6 witness: the concrete valid login of the spec scenario produces a
present user, and a confirmed logout clears it again. -/
theorem C6_auth_transitions_witness :
    ((loginFormSubmit "a@b.com" "12345678" "student" 7
      baseState).2.currentUser).isSome = true ∧
    (logout true 7 emptyForms baseState).currentUser = none :=
  ⟨C6_auth_transitions.1 "a@b.com" "12345678" "student" 7 baseState (by decide),
    (C6_auth_transitions.2.2 7 emptyForms baseState).1⟩

/-! ## Claim C7 -/

/-- C7: every submission of any of the six forms whose fields fail
validation surfaces the per-field error messages of `validateForm` (present
for every offending required field, last conjunct) and performs no state
mutation: the handler returns the input state unchanged. -/
theorem C7_invalid_no_mutation :
    (∀ email password userType now st,
      (validateForm (loginFormData email password userType)
        loginRequiredFields).isValid = false →
      loginFormSubmit email password userType now st =
        (SubmitOutcome.invalid, st)) ∧
    (∀ name email password userType now st,
      (validateForm (registerFormData name email password userType)
        registerRequiredFields).isValid = false →
      registerFormSubmit name email password userType now st =
        (SubmitOutcome.invalid, st)) ∧
    (∀ title content priority now todayStr defaults st,
      (validateForm (announcementFormData title content priority)
        announcementRequiredFields).isValid = false →
      announcementFormSubmit title content priority now todayStr defaults st =
        (SubmitOutcome.invalid, st)) ∧
    (∀ title dateStr timeStr location description eventDay todayDay now
        defaults st,
      (validateForm (eventFormData title dateStr timeStr location description)
        eventRequiredFields).isValid = false →
      eventFormSubmit title dateStr timeStr location description eventDay
        todayDay now defaults st = (SubmitOutcome.invalid, st)) ∧
    (∀ course dateStr timeStr room instructor now defaults st,
      (validateForm (scheduleFormData course dateStr timeStr room instructor)
        scheduleRequiredFields).isValid = false →
      scheduleFormSubmit course dateStr timeStr room instructor now defaults
        st = (SubmitOutcome.invalid, st)) ∧
    (∀ name email utype now defaults st,
      (validateForm (userFormData name email utype)
        userRequiredFields).isValid = false →
      userFormSubmit name email utype now defaults st =
        (SubmitOutcome.invalid, st)) ∧
    (∀ (M : String → String) (R : List String) f, f ∈ R →
      (trimString (M f) = "" ∨ (f = "email" ∧ validateEmail (M f) = false) ∨
        (f = "password" ∧ (M f).length < 8)) →
      ((validateForm M R).errors f).isSome = true) := by
  refine ⟨?_, ?_, ?_, ?_, ?_, ?_, validateForm_errors_isSome⟩
  · intro email password userType now st hinvalid
    simp [loginFormSubmit, hinvalid]
  · intro name email password userType now st hinvalid
    simp [registerFormSubmit, hinvalid]
  · intro title content priority now todayStr defaults st hinvalid
    simp [announcementFormSubmit, hinvalid]
  · intro title dateStr timeStr location description eventDay todayDay now
      defaults st hinvalid
    simp [eventFormSubmit, hinvalid]
  · intro course dateStr timeStr room instructor now defaults st hinvalid
    simp [scheduleFormSubmit, hinvalid]
  · intro name email utype now defaults st hinvalid
    simp [userFormSubmit, hinvalid]

/-- C7 witness: a login with an empty email fails validation and leaves the
state untouched. -/
theorem C7_invalid_no_mutation_witness :
    loginFormSubmit "" "12345678" "student" 7 baseState =
      (SubmitOutcome.invalid, baseState) :=
  C7_invalid_no_mutation.1 "" "12345678" "student" 7 baseState (by decide)

/-! ## Claim C8 -/

/-- C8: while no user is logged in, showing the profile section renders no
profile content and changes nothing but the tracked section and activity
timestamp; the profile renderer itself is a total no-op on an absent user
(its `if (!currentUser) return;` guard fires before any property access, so
nothing can throw). -/
theorem C8_profile_no_user (now : Nat) (st : AppState)
    (h : st.currentUser = none) :
    (showSection "profile" now st).2 = RenderResult.noContent ∧
    (showSection "profile" now st).1 =
      { st with currentSection := "profile", lastActivity := now } ∧
    (∀ editMode profiles,
      renderProfile editMode none profiles = RenderResult.noContent) := by
  have hmem : "profile" ∈ knownSections := by decide
  refine ⟨?_, rfl, fun editMode profiles => rfl⟩
  simp [showSection, onSectionShow, h, hmem]

/-- A state with nobody logged in. -/
def loggedOutState : AppState := { baseState with currentUser := none }

/-- C8 witness: at the concrete logged-out state, showing the profile
section renders nothing. -/
theorem C8_profile_no_user_witness :
    (showSection "profile" 7 loggedOutState).2 = RenderResult.noContent :=
  (C8_profile_no_user 7 loggedOutState rfl).1

/-! ## Claim C9 -/

/-- C9: submitting the login form with email `a@b.com`, password `12345678`
and user type `student` passes validation, and after the simulated delay the
current user is `{name: "Carl Kitusa", email: "a@b.com", type: "student"}`
and the current section is `dashboard`. -/
theorem C9_login_scenario (now : Nat) (st : AppState) :
    (validateForm (loginFormData "a@b.com" "12345678" "student")
      loginRequiredFields).isValid = true ∧
    (loginFormSubmit "a@b.com" "12345678" "student" now st).2.currentUser =
      some { name := "Carl Kitusa", email := "a@b.com", type := "student" } ∧
    (loginFormSubmit "a@b.com" "12345678" "student" now st).2.currentSection =
      "dashboard" := by
  have hvalid : (validateForm (loginFormData "a@b.com" "12345678" "student")
      loginRequiredFields).isValid = true := by decide
  refine ⟨hvalid, ?_, ?_⟩
  · simp [loginFormSubmit, hvalid]
    decide
  · simp [loginFormSubmit, hvalid]

/-- C9 witness: the scenario instantiated at a concrete clock value and
start state. -/
theorem C9_login_scenario_witness :
    (loginFormSubmit "a@b.com" "12345678" "student" 7
      loggedOutState).2.currentUser =
      some { name := "Carl Kitusa", email := "a@b.com", type := "student" } :=
  (C9_login_scenario 7 loggedOutState).2.1

/-! ## Claim C10 -/

/-- C10: the announcement and event success paths read `currentUser.name`
with no null guard.  At a concrete submission passing validation (and, for
the event, the date check) while nobody is logged in, both handlers hit the
null dereference and abort without completing: the outcome is the crash and
the state is unchanged. -/
theorem C10_null_user_crash :
    announcementFormSubmit "T" "C" "normal" 7 "December 4, 2025" emptyForms
      loggedOutState = (SubmitOutcome.nullUserCrash, loggedOutState) ∧
    eventFormSubmit "T" "2025-12-20" "14:00" "L" "D" 10 5 7 emptyForms
      loggedOutState = (SubmitOutcome.nullUserCrash, loggedOutState) ∧
    (validateForm (announcementFormData "T" "C" "normal")
      announcementRequiredFields).isValid = true ∧
    (validateForm (eventFormData "T" "2025-12-20" "14:00" "L" "D")
      eventRequiredFields).isValid = true := by
  decide

end CampusCompanion
